import Mathlib

/-!
Verification of the diagram generation, rendering and export pipeline of the
Diagram Maker frontend.  The file `frontend/src/pages/DiagramRenderer.js`
holds three revisions of the `DiagramRenderer` component, separated by
document markers; they are embedded here as namespaces:

* `V1` — the first revision (lines 1–207): pass-through `getKrokiType`,
  no in-flight guard, no saved-diagram state;
* `V2` — the second revision (lines 207–538): `renderingRef` in-flight
  guard, saved-diagram state, status-only Kroki error message;
* `V3` — the third revision (lines 538–814): table-based `getKrokiType`
  with a `graphviz` default.

`components/PreviewPanel.js` (src/unnamed/part_010) consumes an
`isExporting` prop in its third revision; the component revision that
maintains that flag is not part of the sources, so the busy-flag
behaviour of the export adapter is modelled from the specification.
The backend heuristic generator behind `POST /api/generate-diagram` is
likewise absent from the sources (only its fetch callers appear), so it
too is modelled from the specification.

Machine strings are Lean `String`s; JavaScript truthiness of a string is
embedded as inequality with `""`; `Date.now()` is an explicit `Nat`
parameter; each `fetch` to an external dependency is embedded by passing
the dependency's response as an explicit argument and counting the calls
performed by the control flow.
-/

/-- `leadsWith pat l` is true when `pat` occurs at the head of `l`
(character-list analogue of a prefix test, used to embed JavaScript
`String.prototype.includes`). -/
def leadsWith : List Char → List Char → Bool
  | [], _ => true
  | _ :: _, [] => false
  | a :: as, b :: bs => a == b && leadsWith as bs

/-- `subOf pat l` is true when `pat` occurs contiguously somewhere in `l`. -/
def subOf (pat : List Char) : List Char → Bool
  | [] => leadsWith pat []
  | c :: rest => leadsWith pat (c :: rest) || subOf pat rest

/-- Embedding of JavaScript `s.includes(pat)` on strings. -/
def strHasSub (s pat : String) : Bool := subOf pat.data s.data

/-- JavaScript string whitespace as far as this code base produces it
(space, tab, newline, carriage return). -/
def isSpaceChar (c : Char) : Bool := c == ' ' || c == '\t' || c == '\n' || c == '\r'

/-- Drop the leading whitespace of a character list. -/
def dropLeadSpace : List Char → List Char
  | [] => []
  | c :: rest => if isSpaceChar c then dropLeadSpace rest else c :: rest

/-- Embedding of JavaScript `s.trim()`: strip leading and trailing
whitespace. -/
def jsTrim (s : String) : String :=
  ⟨dropLeadSpace ((dropLeadSpace s.data.reverse).reverse)⟩

/-- ASCII lowering of one character (the fragment of JavaScript
`toLowerCase` relevant to the generator's keyword tests). -/
def lowerChar (c : Char) : Char :=
  if 65 ≤ c.toNat ∧ c.toNat ≤ 90 then Char.ofNat (c.toNat + 32) else c

/-- Embedding of JavaScript `s.toLowerCase()` on the ASCII range. -/
def jsToLower (s : String) : String := ⟨s.data.map lowerChar⟩

/-- The `{ type: 'svg', content: svgText }` object built by `renderDiagram`
(the JavaScript field `type` is embedded as `kind`). -/
structure RenderedDiagram where
  kind : String
  content : String
deriving Repr, DecidableEq

/-- The saved-diagram record `{ id, title, description, updated_at }` kept by
the second revision. -/
structure SavedDiagram where
  id : String
  title : String
  description : String
  updated_at : String
deriving Repr, DecidableEq

/-- Response of the backend generation dependency as observed by
`generateDiagramCode`: the HTTP `ok`/`status` pair and the parsed JSON
body's `detail` and `code` fields.  `detail = none` embeds a missing or
unparsable `detail` field; an empty-string `detail` is falsy in the
source's `errorData.detail || fallback` test, which the embedding
reproduces. -/
structure GenResp where
  ok : Bool
  status : Nat
  detail : Option String
  code : String
deriving Repr, DecidableEq

/-- Response of the Kroki rendering dependency: the HTTP `ok`/`status` pair
and the raw response body text (SVG markup on success, the renderer's error
text on failure; for the PNG endpoint the body stands for the blob bytes). -/
structure KrokiResp where
  ok : Bool
  status : Nat
  body : String
deriving Repr, DecidableEq

/-- Number of network calls made to each external dependency while one
invocation of `handleGenerateDiagram` runs. -/
structure Calls where
  genCalls : Nat
  renderCalls : Nat
deriving Repr, DecidableEq

/-- Result of one settled `handleGenerateDiagram` invocation: the component
state after all `setState`/`finally` writes, the number of external calls
performed, and the message of the `toast.error` shown, if any (the
validation toast on a blank description, or the caught error message). -/
structure FlowResult (σ : Type) where
  state : σ
  calls : Calls
  toastError : Option String
deriving Repr, DecidableEq

/-- Observable outcome of one `handleExport` invocation: how many calls were
made to the rendering dependency, the request body sent on a PNG call, the
downloaded file as (filename, content, MIME type), and the error toast shown
on failure.  The MIME type of the SVG download is the `image/svg+xml` set on
the `Blob`; the PNG blob's type comes from the response and is embedded as
`image/png`. -/
structure ExportOutcome where
  renderCalls : Nat
  requestBody : Option String
  download : Option (String × String × String)
  toastError : Option String
deriving Repr, DecidableEq

namespace V1

/-- `getKrokiType` from the first revision (DiagramRenderer.js lines 20–22):
the comment in the source reads "Kroki type is now directly the diagram type
selected by user", and the function returns its argument unchanged. -/
def getKrokiType (t : String) : String := t

/-- The `useState` fields of the first revision (lines 8–17). -/
structure State where
  userInput : String
  diagramType : String
  generatedCode : String
  renderedDiagram : Option RenderedDiagram
  isGenerating : Bool
  isRendering : Bool
  error : Option String
  showCode : Bool
deriving Repr, DecidableEq

/-- `generateDiagramCode` of the first revision (lines 25–50): on a non-ok
response it throws `errorData.detail || "Failed to generate diagram code: "
+ status`; on success it returns `data.code`.  The outer catch rethrows
`error.message || fallback`, which leaves the message unchanged because the
inner message is never empty. -/
def generateDiagramCode (resp : GenResp) : Except String String :=
  if resp.ok then .ok resp.code
  else
    .error (let d := (resp.detail).getD ""
            if d = "" then "Failed to generate diagram code: " ++ toString resp.status else d)

/-- `renderDiagram` of the first revision (lines 53–75): on a non-ok
response the raw body text is thrown as the error message
(`errorText || "Failed to render diagram"`); on success the SVG text becomes
the rendered artifact. -/
def renderDiagram (resp : KrokiResp) : Except String RenderedDiagram :=
  if resp.ok then .ok ⟨"svg", resp.body⟩
  else .error (if resp.body = "" then "Failed to render diagram" else resp.body)

/-- `handleGenerateDiagram` of the first revision (lines 78–108): blank-input
guard, then one generation call; on its success one render call; `catch`
stores the thrown message in `error`; `finally` clears both busy flags.
The settled component state is paired with the number of external calls the
invocation performed. -/
def handleGenerateDiagram (st : State) (genResp : GenResp) (krokiResp : KrokiResp) :
    FlowResult State :=
  if jsTrim st.userInput = "" then
    ⟨st, ⟨0, 0⟩, some "Please describe what you want to visualize"⟩
  else
    match generateDiagramCode genResp with
    | .error msg =>
        ⟨{ st with error := some msg, isGenerating := false, isRendering := false },
         ⟨1, 0⟩, some msg⟩
    | .ok code =>
        match renderDiagram krokiResp with
        | .error msg =>
            ⟨{ st with
                generatedCode := code
                error := some msg
                isGenerating := false
                isRendering := false }, ⟨1, 1⟩, some msg⟩
        | .ok diagram =>
            ⟨{ st with
                generatedCode := code
                renderedDiagram := some diagram
                error := none
                isGenerating := false
                isRendering := false }, ⟨1, 1⟩, none⟩

/-- `handleExport` of the first revision (lines 111–161).  `now` embeds
`Date.now()`.  The SVG branch builds the download from the held
`renderedDiagram.content` with no network call; the PNG branch posts
`generatedCode` to the Kroki PNG endpoint (exactly one call) and downloads
the returned blob; a failed PNG response lands in the catch, which only
shows a toast. -/
def handleExport (st : State) (format : String) (pngResp : KrokiResp) (now : Nat) :
    ExportOutcome :=
  match st.renderedDiagram with
  | none => ⟨0, none, none, some "Please generate a diagram first"⟩
  | some rd =>
    if format = "svg" then
      ⟨0, none, some ("diagram-" ++ toString now ++ ".svg", rd.content, "image/svg+xml"), none⟩
    else if format = "png" then
      if pngResp.ok then
        ⟨1, some st.generatedCode,
         some ("diagram-" ++ toString now ++ ".png", pngResp.body, "image/png"), none⟩
      else
        ⟨1, some st.generatedCode, none, some "Failed to export diagram"⟩
    else ⟨0, none, none, none⟩

/-- `clearAll` of the first revision (lines 163–169). -/
def clearAll (st : State) : State :=
  { st with userInput := "", generatedCode := "", renderedDiagram := none, error := none }

end V1

namespace V2

/-- The `useState` fields of the second revision (lines 217–231) together
with the `renderingRef` in-flight ref (line 234). -/
structure State where
  userInput : String
  diagramType : String
  generatedCode : String
  renderedDiagram : Option RenderedDiagram
  isGenerating : Bool
  isRendering : Bool
  error : Option String
  showCode : Bool
  showSaveModal : Bool
  isSaving : Bool
  savedDiagram : Option SavedDiagram
  renderingRef : Bool
deriving Repr, DecidableEq

/-- `getKrokiType` of the second revision (lines 239–241): identical
pass-through to the first revision's. -/
def getKrokiType (t : String) : String := t

/-- `generateDiagramCode` of the second revision (lines 244–268): reads the
body once, then on a non-ok status throws `data.detail || "Backend error: "
+ status`; on success returns `data.code`. -/
def generateDiagramCode (resp : GenResp) : Except String String :=
  if resp.ok then .ok resp.code
  else
    .error (let d := (resp.detail).getD ""
            if d = "" then "Backend error: " ++ toString resp.status else d)

/-- `renderDiagram` of the second revision (lines 271–295): on a non-ok
status the raw body is only written to `console.error`; the thrown message
is `"Kroki API returned " + status + ". Check diagram syntax."`. -/
def renderDiagram (resp : KrokiResp) : Except String RenderedDiagram :=
  if resp.ok then .ok ⟨"svg", resp.body⟩
  else .error ("Kroki API returned " ++ toString resp.status ++ ". Check diagram syntax.")

/-- `handleGenerateDiagram` of the second revision (lines 298–338): blank
guard, then the `renderingRef` in-flight guard (early return, no calls, no
state writes); otherwise the ref is set for the duration of the flow and
cleared in `finally` along with both busy flags. -/
def handleGenerateDiagram (st : State) (genResp : GenResp) (krokiResp : KrokiResp) :
    FlowResult State :=
  if jsTrim st.userInput = "" then
    ⟨st, ⟨0, 0⟩, some "Please describe what you want to visualize"⟩
  else if st.renderingRef then
    ⟨st, ⟨0, 0⟩, none⟩
  else
    match generateDiagramCode genResp with
    | .error msg =>
        ⟨{ st with
            error := some msg
            isGenerating := false
            isRendering := false
            renderingRef := false }, ⟨1, 0⟩, some msg⟩
    | .ok code =>
        match renderDiagram krokiResp with
        | .error msg =>
            ⟨{ st with
                generatedCode := code
                error := some msg
                isGenerating := false
                isRendering := false
                renderingRef := false }, ⟨1, 1⟩, some msg⟩
        | .ok diagram =>
            ⟨{ st with
                generatedCode := code
                renderedDiagram := some diagram
                error := none
                isGenerating := false
                isRendering := false
                renderingRef := false }, ⟨1, 1⟩, none⟩

/-- `handleExport` of the second revision (lines 341–406): like the first
revision's but with an extra empty-`generatedCode` guard, filenames prefixed
with the diagram type, and a PNG failure toast that includes the thrown
message (`"Failed to export as PNG: " + status`). -/
def handleExport (st : State) (format : String) (pngResp : KrokiResp) (now : Nat) :
    ExportOutcome :=
  match st.renderedDiagram with
  | none => ⟨0, none, none, some "Please generate a diagram first"⟩
  | some rd =>
    if st.generatedCode = "" then
      ⟨0, none, none, some "No diagram code available to export"⟩
    else if format = "svg" then
      ⟨0, none,
       some (st.diagramType ++ "-diagram-" ++ toString now ++ ".svg", rd.content,
             "image/svg+xml"), none⟩
    else if format = "png" then
      if pngResp.ok then
        ⟨1, some st.generatedCode,
         some (st.diagramType ++ "-diagram-" ++ toString now ++ ".png", pngResp.body,
               "image/png"), none⟩
      else
        ⟨1, some st.generatedCode, none,
         some ("Failed to export diagram: Failed to export as PNG: " ++ toString pngResp.status)⟩
    else ⟨0, none, none, none⟩

/-- `clearAll` of the second revision (lines 408–415): additionally clears
the saved-diagram reference. -/
def clearAll (st : State) : State :=
  { st with
    userInput := ""
    generatedCode := ""
    renderedDiagram := none
    error := none
    savedDiagram := none }

end V2

namespace V3

/-- `getKrokiType` from the third revision (DiagramRenderer.js lines
556–566): a fixed object-literal lookup with `|| 'graphviz'` as the default
for a missing key. -/
def getKrokiType (t : String) : String :=
  if t = "flowchart" then "graphviz"
  else if t = "sequence" then "mermaid"
  else if t = "mindmap" then "mermaid"
  else if t = "process" then "graphviz"
  else if t = "organization" then "graphviz"
  else "graphviz"

end V3

/-- An edge of a generated flowchart: source node, destination node, and the
edge label (empty for an unlabeled edge). -/
structure Edge where
  src : String
  dst : String
  label : String
deriving Repr, DecidableEq

namespace SpecGen

/-- Modelled from the spec: keyword cue for the optional review step.  The
backend heuristic generator behind `POST /api/generate-diagram` is not among
the sources (only its fetch callers appear); §4.2 lower-cases the
description and tests for the presence of domain keywords. -/
def hasReviewKeyword (d : String) : Bool := strHasSub (jsToLower d) "review"

/-- Modelled from the spec: keyword cue for the decision node
("approve"/"decision"/"reject", §4.2). -/
def hasDecisionKeyword (d : String) : Bool :=
  strHasSub (jsToLower d) "approve" || strHasSub (jsToLower d) "decision"
    || strHasSub (jsToLower d) "reject"

/-- Modelled from the spec: keyword cue for the completion node
("complete", §4.2). -/
def hasCompleteKeyword (d : String) : Bool := strHasSub (jsToLower d) "complete"

/-- Modelled from the spec: the edge set produced by the heuristic
text-to-flowchart generator, which is absent from the sources.  Per §4.2:
keyword cues decide which optional nodes are spliced into the base skeleton
start → [review] → decision → [complete | loop-back] → end; when no
recognized keyword is found, a minimal 3-node linear skeleton
start → process → end is produced; when a decision is present the generator
emits the forward edge labeled "Approved" (toward the completion node when
one is present, else the end node) and the back edge labeled "Rejected"
routed to the earliest optional step detected: the review node if present,
else the start node. -/
def generateFlowchartEdges (description : String) : List Edge :=
  let hasReview := hasReviewKeyword description
  let hasDecision := hasDecisionKeyword description
  let hasComplete := hasCompleteKeyword description
  if hasReview || hasDecision || hasComplete then
    let beforeDecision := if hasReview then [Edge.mk "start" "review" ""] else []
    let decisionSrc := if hasReview then "review" else "start"
    if hasDecision then
      let approvedDst := if hasComplete then "complete" else "end"
      let rejectedDst := if hasReview then "review" else "start"
      beforeDecision ++
        [Edge.mk decisionSrc "decision" "",
         Edge.mk "decision" approvedDst "Approved",
         Edge.mk "decision" rejectedDst "Rejected"] ++
        (if hasComplete then [Edge.mk "complete" "end" ""] else [])
    else
      beforeDecision ++
        (if hasComplete then [Edge.mk decisionSrc "complete" "", Edge.mk "complete" "end" ""]
         else [Edge.mk decisionSrc "end" ""])
  else
    [Edge.mk "start" "process" "", Edge.mk "process" "end" ""]

/-- Rendering of one edge as a GraphViz statement. -/
def edgeToDot (e : Edge) : String :=
  if e.label = "" then "  " ++ e.src ++ " -> " ++ e.dst ++ ";"
  else "  " ++ e.src ++ " -> " ++ e.dst ++ " [label=\"" ++ e.label ++ "\"];"

/-- Modelled from the spec: the GraphViz source emitted for the flowchart
category, a digraph wrapping the generated edge statements. -/
def generateFlowchart (description : String) : String :=
  "digraph G \x7b\n"
    ++ String.intercalate "\n" ((generateFlowchartEdges description).map edgeToDot)
    ++ "\n\x7d"

/-- The P4 / Scenario A description from the spec, fixed here as the input
of the branch-labeling claim. -/
def approvalDescription : String :=
  "Start, Review Document, Approve or Reject, if approved go to Complete, if rejected go back to Review, End"

end SpecGen

namespace ExportBusy

/-- Session-level export state: the busy flag the third-revision
`PreviewPanel` consumes as its `isExporting` prop, the produced download and
the surfaced error, if any. -/
structure State where
  isExporting : Bool
  download : Option String
  errMsg : Option String
deriving Repr, DecidableEq

/-- Modelled from the spec: the `DiagramRenderer` revision that maintains
the `isExporting` busy flag is not among the sources (the third revision of
`PreviewPanel` only consumes the flag as a prop and disables its export
controls while it is set).  Per §4.4 the export adapter sets the busy flag
on entry and releases it on both the success and the failure path (a
`finally`-equivalent construct); `outcome` is the settlement of the export
body, success carrying the downloaded content and failure the error
message. -/
def runExport (st : State) (outcome : Except String String) : State :=
  let running : State := { st with isExporting := true, errMsg := none }
  let settled : State :=
    match outcome with
    | .ok data => { running with download := some data }
    | .error e => { running with errMsg := some e }
  { settled with isExporting := false }

end ExportBusy

/-- Fixture: a first-revision state holding a rendered artifact and
generated code. -/
def readyState1 : V1.State :=
  ⟨"a workflow", "flowchart", "digraph W", some ⟨"svg", "<svg>w</svg>"⟩, false, false, none,
   false⟩

/-- Fixture: a second-revision state holding a rendered artifact, generated
code and a saved diagram titled "My Flowchart". -/
def readyState2 : V2.State :=
  ⟨"a workflow", "graphviz", "digraph W2", some ⟨"svg", "<svg>w2</svg>"⟩, false, false, none,
   false, false, false, some ⟨"diag-1", "My Flowchart", "approval flow", "2024-01-01T00:00:00Z"⟩,
   false⟩

/-- Fixture: a first-revision state with whitespace-only input. -/
def blankState1 : V1.State := ⟨"   ", "flowchart", "", none, false, false, none, false⟩

/-- Fixture: a second-revision state with whitespace-only input. -/
def blankState2 : V2.State :=
  ⟨"   ", "graphviz", "", none, false, false, none, false, false, false, none, false⟩

/-- Fixture: a second-revision idle state with non-blank input. -/
def idleState2 : V2.State :=
  ⟨"make a flow", "graphviz", "", none, false, false, none, false, false, false, none, false⟩

/-- Fixture: a first-revision state observed mid-flight (`isGenerating`
already set by an unsettled flow), with non-blank input and previously
generated code. -/
def midFlightState1 : V1.State :=
  ⟨"draw a graph", "flowchart", "old code", none, true, false, none, false⟩

/-- Fixture: a second-revision state observed mid-flight: `renderingRef`
and `isGenerating` set. -/
def midFlightState2 : V2.State :=
  ⟨"draw a graph", "graphviz", "old code", none, true, false, none, false, false, false, none,
   true⟩

/-- Fixture: a successful generation response. -/
def okGen : GenResp := ⟨true, 200, none, "digraph G \x7b\x7d"⟩

/-- Fixture: a failed generation response with a detail message. -/
def badGen : GenResp := ⟨false, 500, some "model unavailable", ""⟩

/-- Fixture: a successful Kroki response. -/
def okKroki : KrokiResp := ⟨true, 200, "<svg>ok</svg>"⟩

/-- Fixture: a failed Kroki response carrying the renderer's raw error
text. -/
def badKroki : KrokiResp := ⟨false, 400, "syntax error line 3"⟩

/-- C1 (amended): for every category outside the five known ones, the
table-based router of the third revision resolves to "graphviz" without
throwing, while the pass-through router of the first revision returns the
unknown category unchanged rather than defaulting it. -/
theorem C1_router_unknown_default (t : String)
    (h : t ≠ "flowchart" ∧ t ≠ "sequence" ∧ t ≠ "mindmap" ∧ t ≠ "process" ∧
         t ≠ "organization") :
    V3.getKrokiType t = "graphviz" ∧ V1.getKrokiType t = t := by
  obtain ⟨h1, h2, h3, h4, h5⟩ := h
  exact ⟨by simp [V3.getKrokiType, h1, h2, h3, h4, h5], rfl⟩

/-- C1 witness: the amended router behaviour at the spec's example
category. -/
theorem C1_router_unknown_default_witness :
    (("totally-unknown-category" : String) ≠ "flowchart" ∧
     ("totally-unknown-category" : String) ≠ "sequence" ∧
     ("totally-unknown-category" : String) ≠ "mindmap" ∧
     ("totally-unknown-category" : String) ≠ "process" ∧
     ("totally-unknown-category" : String) ≠ "organization") ∧
    (V3.getKrokiType "totally-unknown-category" = "graphviz" ∧
     V1.getKrokiType "totally-unknown-category" = "totally-unknown-category") :=
  ⟨by decide, C1_router_unknown_default "totally-unknown-category" (by decide)⟩

/-- C1 counterexample: the first revision's `getKrokiType` (lines 20–22)
propagates an unrecognized category instead of defaulting it to
"graphviz". -/
theorem C1_passthrough_counterexample :
    V1.getKrokiType "totally-unknown-category" = "totally-unknown-category" ∧
    V1.getKrokiType "totally-unknown-category" ≠ "graphviz" :=
  ⟨rfl, by decide⟩

/-- C2: a description that is blank after trimming is rejected as a
validation error (only the validation toast is shown), the session state is
left unchanged, and zero generation and zero render calls are made, in both
revisions and for every diagram category held in the state. -/
theorem C2_blank_description_rejected (st1 : V1.State) (st2 : V2.State)
    (genResp : GenResp) (krokiResp : KrokiResp)
    (h1 : jsTrim st1.userInput = "") (h2 : jsTrim st2.userInput = "") :
    V1.handleGenerateDiagram st1 genResp krokiResp =
      ⟨st1, ⟨0, 0⟩, some "Please describe what you want to visualize"⟩ ∧
    V2.handleGenerateDiagram st2 genResp krokiResp =
      ⟨st2, ⟨0, 0⟩, some "Please describe what you want to visualize"⟩ := by
  constructor
  · simp [V1.handleGenerateDiagram, h1]
  · simp [V2.handleGenerateDiagram, h2]

/-- C2 witness: the blank guard at a whitespace-only description. -/
theorem C2_blank_description_rejected_witness :
    (jsTrim blankState1.userInput = "" ∧ jsTrim blankState2.userInput = "") ∧
    (V1.handleGenerateDiagram blankState1 okGen okKroki =
       ⟨blankState1, ⟨0, 0⟩, some "Please describe what you want to visualize"⟩ ∧
     V2.handleGenerateDiagram blankState2 okGen okKroki =
       ⟨blankState2, ⟨0, 0⟩, some "Please describe what you want to visualize"⟩) :=
  ⟨⟨by decide, by decide⟩,
   C2_blank_description_rejected blankState1 blankState2 okGen okKroki (by decide) (by decide)⟩

/-- C3: with a rendered artifact held (and, in the second revision,
non-empty generated code), exporting as "svg" makes no call to the
rendering dependency and downloads the held artifact content verbatim as
image/svg+xml, while exporting as "png" makes exactly one call whose
request body is the retained generated source code. -/
theorem C3_export_format_effects (st1 : V1.State) (st2 : V2.State)
    (rd1 rd2 : RenderedDiagram) (pngResp : KrokiResp) (now : Nat)
    (h1 : st1.renderedDiagram = some rd1)
    (h2 : st2.renderedDiagram = some rd2) (h2c : st2.generatedCode ≠ "") :
    (V1.handleExport st1 "svg" pngResp now).renderCalls = 0 ∧
    (V1.handleExport st1 "svg" pngResp now).download =
      some ("diagram-" ++ toString now ++ ".svg", rd1.content, "image/svg+xml") ∧
    (V1.handleExport st1 "png" pngResp now).renderCalls = 1 ∧
    (V1.handleExport st1 "png" pngResp now).requestBody = some st1.generatedCode ∧
    (V2.handleExport st2 "svg" pngResp now).renderCalls = 0 ∧
    (V2.handleExport st2 "svg" pngResp now).download =
      some (st2.diagramType ++ "-diagram-" ++ toString now ++ ".svg", rd2.content,
            "image/svg+xml") ∧
    (V2.handleExport st2 "png" pngResp now).renderCalls = 1 ∧
    (V2.handleExport st2 "png" pngResp now).requestBody = some st2.generatedCode := by
  refine ⟨?_, ?_, ?_, ?_, ?_, ?_, ?_, ?_⟩ <;>
    cases hok : pngResp.ok <;>
      simp [V1.handleExport, V2.handleExport, h1, h2, h2c, hok]

/-- C3 witness: the export effects at a session holding an artifact and
generated code. -/
theorem C3_export_format_effects_witness :
    (readyState1.renderedDiagram = some ⟨"svg", "<svg>w</svg>"⟩ ∧
     readyState2.renderedDiagram = some ⟨"svg", "<svg>w2</svg>"⟩ ∧
     readyState2.generatedCode ≠ "") ∧
    ((V1.handleExport readyState1 "svg" okKroki 42).renderCalls = 0 ∧
     (V1.handleExport readyState1 "svg" okKroki 42).download =
       some ("diagram-" ++ toString 42 ++ ".svg",
             (⟨"svg", "<svg>w</svg>"⟩ : RenderedDiagram).content, "image/svg+xml") ∧
     (V1.handleExport readyState1 "png" okKroki 42).renderCalls = 1 ∧
     (V1.handleExport readyState1 "png" okKroki 42).requestBody =
       some readyState1.generatedCode ∧
     (V2.handleExport readyState2 "svg" okKroki 42).renderCalls = 0 ∧
     (V2.handleExport readyState2 "svg" okKroki 42).download =
       some (readyState2.diagramType ++ "-diagram-" ++ toString 42 ++ ".svg",
             (⟨"svg", "<svg>w2</svg>"⟩ : RenderedDiagram).content, "image/svg+xml") ∧
     (V2.handleExport readyState2 "png" okKroki 42).renderCalls = 1 ∧
     (V2.handleExport readyState2 "png" okKroki 42).requestBody =
       some readyState2.generatedCode) :=
  ⟨⟨rfl, rfl, by decide⟩,
   C3_export_format_effects readyState1 readyState2 ⟨"svg", "<svg>w</svg>"⟩
     ⟨"svg", "<svg>w2</svg>"⟩ okKroki 42 rfl rfl (by decide)⟩

/-- C4 (spec-modelled): for the approval-workflow description the generated
flowchart contains the edge labeled "Approved" from the decision node to
the completion node and the edge labeled "Rejected" from the decision node
back to the review node — and no "Rejected" edge to the start node; in
general, whenever a decision keyword is present the "Rejected" edge routes
to the review node when a review keyword is detected and to the start node
otherwise. -/
theorem C4_branch_labels :
    (Edge.mk "decision" "complete" "Approved" ∈
       SpecGen.generateFlowchartEdges SpecGen.approvalDescription ∧
     Edge.mk "decision" "review" "Rejected" ∈
       SpecGen.generateFlowchartEdges SpecGen.approvalDescription ∧
     Edge.mk "decision" "start" "Rejected" ∉
       SpecGen.generateFlowchartEdges SpecGen.approvalDescription) ∧
    ∀ d : String, SpecGen.hasDecisionKeyword d = true →
      Edge.mk "decision" (if SpecGen.hasReviewKeyword d then "review" else "start")
          "Rejected" ∈ SpecGen.generateFlowchartEdges d := by
  constructor
  · exact ⟨by decide, by decide, by decide⟩
  · intro d hd
    cases hR : SpecGen.hasReviewKeyword d <;>
      cases hC : SpecGen.hasCompleteKeyword d <;>
        simp [SpecGen.generateFlowchartEdges, hd, hR, hC]

/-- C4 witness: the reject edge routes to the start node for a description
with a decision keyword but no review keyword. -/
theorem C4_branch_labels_witness :
    SpecGen.hasDecisionKeyword "approve the request" = true ∧
    Edge.mk "decision"
        (if SpecGen.hasReviewKeyword "approve the request" then "review" else "start")
        "Rejected" ∈ SpecGen.generateFlowchartEdges "approve the request" :=
  ⟨by decide, C4_branch_labels.2 "approve the request" (by decide)⟩

/-- C5 counterexample: in the second revision a 400 Kroki response with
body "syntax error line 3" ends the flow in Failed, but the surfaced
message is the status-only text and does not contain the dependency's raw
error body. -/
theorem C5_raw_error_counterexample :
    (V2.handleGenerateDiagram idleState2 okGen badKroki).state.error =
      some "Kroki API returned 400. Check diagram syntax." ∧
    strHasSub "Kroki API returned 400. Check diagram syntax." "syntax error line 3" = false :=
  ⟨by decide, by decide⟩

/-- C5 (amended): when the rendering dependency responds non-2xx, the first
revision ends the flow in Failed with the dependency's non-empty raw error
body verbatim as the surfaced message, while the second revision also ends
in Failed but surfaces only "Kroki API returned <status>. Check diagram
syntax." (the raw body goes to the console log, not to the caller). -/
theorem C5_render_error_message (st1 : V1.State) (st2 : V2.State)
    (genResp : GenResp) (krokiResp : KrokiResp)
    (hb1 : jsTrim st1.userInput ≠ "") (hb2 : jsTrim st2.userInput ≠ "")
    (href : st2.renderingRef = false)
    (hgen : genResp.ok = true) (hko : krokiResp.ok = false) (hbody : krokiResp.body ≠ "") :
    (V1.handleGenerateDiagram st1 genResp krokiResp).state.error = some krokiResp.body ∧
    (V2.handleGenerateDiagram st2 genResp krokiResp).state.error =
      some ("Kroki API returned " ++ toString krokiResp.status ++ ". Check diagram syntax.") := by
  constructor
  · simp [V1.handleGenerateDiagram, V1.generateDiagramCode, V1.renderDiagram,
          hb1, hgen, hko, hbody]
  · simp [V2.handleGenerateDiagram, V2.generateDiagramCode, V2.renderDiagram,
          hb2, href, hgen, hko]

/-- C5 witness: the two surfaced messages at the Scenario C response. -/
theorem C5_render_error_message_witness :
    (jsTrim readyState1.userInput ≠ "" ∧ jsTrim idleState2.userInput ≠ "" ∧
     idleState2.renderingRef = false ∧ okGen.ok = true ∧ badKroki.ok = false ∧
     badKroki.body ≠ "") ∧
    ((V1.handleGenerateDiagram readyState1 okGen badKroki).state.error = some badKroki.body ∧
     (V2.handleGenerateDiagram idleState2 okGen badKroki).state.error =
       some ("Kroki API returned " ++ toString badKroki.status ++ ". Check diagram syntax.")) :=
  ⟨⟨by decide, by decide, rfl, rfl, rfl, by decide⟩,
   C5_render_error_message readyState1 idleState2 okGen badKroki (by decide) (by decide)
     rfl rfl rfl (by decide)⟩

/-- C6: with a non-blank description the first revision's flow makes
exactly one generation call; when the generation response is non-ok the
flow ends Failed (error set) with zero render calls, and when both
dependencies succeed the flow makes exactly one render call and stores the
rendered artifact. -/
theorem C6_flow_call_discipline (st : V1.State) (genResp : GenResp) (krokiResp : KrokiResp)
    (hb : jsTrim st.userInput ≠ "") :
    (V1.handleGenerateDiagram st genResp krokiResp).calls.genCalls = 1 ∧
    (genResp.ok = false →
      (V1.handleGenerateDiagram st genResp krokiResp).calls = ⟨1, 0⟩ ∧
      ((V1.handleGenerateDiagram st genResp krokiResp).state.error).isSome = true) ∧
    (genResp.ok = true → krokiResp.ok = true →
      (V1.handleGenerateDiagram st genResp krokiResp).calls = ⟨1, 1⟩ ∧
      (V1.handleGenerateDiagram st genResp krokiResp).state.renderedDiagram =
        some ⟨"svg", krokiResp.body⟩) := by
  refine ⟨?_, ?_, ?_⟩ <;>
    cases hg : genResp.ok <;> cases hk : krokiResp.ok <;>
      simp [V1.handleGenerateDiagram, V1.generateDiagramCode, V1.renderDiagram, hb, hg, hk]

/-- C6 witness: the call discipline at a failed generation response. -/
theorem C6_flow_call_discipline_witness :
    (jsTrim readyState1.userInput ≠ "") ∧
    ((V1.handleGenerateDiagram readyState1 badGen okKroki).calls.genCalls = 1 ∧
     (badGen.ok = false →
       (V1.handleGenerateDiagram readyState1 badGen okKroki).calls = ⟨1, 0⟩ ∧
       ((V1.handleGenerateDiagram readyState1 badGen okKroki).state.error).isSome = true) ∧
     (badGen.ok = true → okKroki.ok = true →
       (V1.handleGenerateDiagram readyState1 badGen okKroki).calls = ⟨1, 1⟩ ∧
       (V1.handleGenerateDiagram readyState1 badGen okKroki).state.renderedDiagram =
         some ⟨"svg", okKroki.body⟩)) :=
  ⟨by decide, C6_flow_call_discipline readyState1 badGen okKroki (by decide)⟩

/-- C7 counterexample: the first revision has no in-flight guard — invoking
its handler on a mid-flight session state (`isGenerating` already true,
non-blank input) performs another external generation call and overwrites
the session's previously generated source. -/
theorem C7_no_guard_counterexample :
    midFlightState1.isGenerating = true ∧
    midFlightState1.generatedCode = "old code" ∧
    (V1.handleGenerateDiagram midFlightState1 ⟨true, 200, none, "new code"⟩
        okKroki).calls.genCalls = 1 ∧
    (V1.handleGenerateDiagram midFlightState1 ⟨true, 200, none, "new code"⟩
        okKroki).state.generatedCode = "new code" :=
  ⟨rfl, rfl, by decide, by decide⟩

/-- C7 (amended): in the second revision the `renderingRef` guard is set
synchronously at flow entry and cleared only when the flow settles, so a
generation request issued while it is set is a no-op — no external calls
and no change to the session state (in particular the generated source and
the artifact are not overwritten).  The first revision's handler has no
such guard. -/
theorem C7_inflight_guard_noop (st : V2.State) (genResp : GenResp) (krokiResp : KrokiResp)
    (h : st.renderingRef = true) :
    (V2.handleGenerateDiagram st genResp krokiResp).state = st ∧
    (V2.handleGenerateDiagram st genResp krokiResp).calls = ⟨0, 0⟩ := by
  by_cases hb : jsTrim st.userInput = "" <;>
    simp [V2.handleGenerateDiagram, h, hb]

/-- C7 witness: the guard no-op at a mid-flight second-revision state. -/
theorem C7_inflight_guard_noop_witness :
    midFlightState2.renderingRef = true ∧
    ((V2.handleGenerateDiagram midFlightState2 okGen okKroki).state = midFlightState2 ∧
     (V2.handleGenerateDiagram midFlightState2 okGen okKroki).calls = ⟨0, 0⟩) :=
  ⟨rfl, C7_inflight_guard_noop midFlightState2 okGen okKroki rfl⟩

/-- C8 (spec-modelled): after any export settles — whether the body
succeeded or failed — the export-busy flag is false: the adapter releases
it on both paths. -/
theorem C8_export_busy_released (st : ExportBusy.State) (outcome : Except String String) :
    (ExportBusy.runExport st outcome).isExporting = false := by
  cases outcome <;> rfl

/-- C9: the export filename ignores the saved title.  Exporting the
`readyState2` session, whose saved diagram is titled "My Flowchart", yields
the generic type-and-timestamp filename, which contains neither the title
nor its filesystem slug (the repository's own answer key records this as
bug EXPORT-001). -/
theorem C9_filename_ignores_title :
    readyState2.savedDiagram =
      some ⟨"diag-1", "My Flowchart", "approval flow", "2024-01-01T00:00:00Z"⟩ ∧
    (V2.handleExport readyState2 "png" ⟨true, 200, "pngbytes"⟩ 1700000000).download =
      some ("graphviz-diagram-1700000000.png", "pngbytes", "image/png") ∧
    strHasSub "graphviz-diagram-1700000000.png" "my-flowchart" = false ∧
    strHasSub "graphviz-diagram-1700000000.png" "My Flowchart" = false :=
  ⟨rfl, by decide, by decide, by decide⟩

/-- C10: `clearAll` resets the session: user input and generated code
become empty, the rendered artifact and the error become none, and in the
second revision the saved-diagram reference is cleared as well, while the
selected diagram category is kept. -/
theorem C10_clearAll_resets (st1 : V1.State) (st2 : V2.State) :
    ((V1.clearAll st1).userInput = "" ∧ (V1.clearAll st1).generatedCode = "" ∧
     (V1.clearAll st1).renderedDiagram = none ∧ (V1.clearAll st1).error = none ∧
     (V1.clearAll st1).diagramType = st1.diagramType) ∧
    ((V2.clearAll st2).userInput = "" ∧ (V2.clearAll st2).generatedCode = "" ∧
     (V2.clearAll st2).renderedDiagram = none ∧ (V2.clearAll st2).error = none ∧
     (V2.clearAll st2).savedDiagram = none ∧ (V2.clearAll st2).diagramType = st2.diagramType) :=
  ⟨⟨rfl, rfl, rfl, rfl, rfl⟩, ⟨rfl, rfl, rfl, rfl, rfl, rfl⟩⟩
